import Mathlib

/-!
Verification of the chat web server in `Python Logic/main.py`.

The Python program is shallowly embedded: Python strings become Lean
`String`, the external `ollama` CLI and the chat HTTP call become explicit
environment parameters, the chats directory becomes a map from file key to
parsed payload, and each Flask handler becomes a pure function from request
data and state to a response value and new state.
-/

namespace ChatServer

/-- Model of the whitespace set used by Python's `str.strip()` and
`str.split()` with no separator. Python also strips further Unicode space
code points; the six ASCII whitespace characters modelled here are the
only ones any theorem in this file evaluates. -/
def pyIsSpace (c : Char) : Bool :=
  c == ' ' || c == '\t' || c == '\n' || c == '\r' || c == '\x0b' || c == '\x0c'

/-- Model of Python's Unicode-aware `str.isalnum`. It is exact on ASCII and
on the Latin-1 supplement: the letters U+00C0..U+00FF minus the
multiplication sign U+00D7 and division sign U+00F7, plus the Latin-1
alphanumeric signs (ª ² ³ µ ¹ º ¼ ½ ¾). Code points above U+00FF that
Python also classifies as alphanumeric (further Unicode letters and
digits) are outside the range any theorem here evaluates and are mapped
to `false` by this model. -/
def pyIsAlnum (c : Char) : Bool :=
  c.isAlphanum
    || (decide (0xC0 ≤ c.toNat) && decide (c.toNat ≤ 0xFF)
        && decide (c.toNat ≠ 0xD7) && decide (c.toNat ≠ 0xF7))
    || decide (c.toNat ∈ [0xAA, 0xB2, 0xB3, 0xB5, 0xB9, 0xBA, 0xBC, 0xBD, 0xBE])

/-- Strip characters satisfying `p` from both ends of a list. -/
def stripWhile (p : α → Bool) (l : List α) : List α :=
  ((l.dropWhile p).reverse.dropWhile p).reverse

/-- Model of Python's `str.strip()` (no argument): removes leading and
trailing whitespace. -/
def pyStrip (s : String) : String :=
  ⟨stripWhile pyIsSpace s.data⟩

/-- Model of Python's `str.strip('"')`: removes leading and trailing
double-quote characters. -/
def pyStripQuotes (s : String) : String :=
  ⟨stripWhile (fun c => c == '"') s.data⟩

/-- Model of Python's slice `s[:n]`. -/
def pyTake (n : Nat) (s : String) : String :=
  ⟨s.data.take n⟩

/-- Model of Python's `s or d` for strings: `d` when `s` is empty
(falsy), otherwise `s`. -/
def orDefault (s d : String) : String :=
  if s = "" then d else s

/-- Accumulator pass for `pySplitlines`. A line ends at `\r\n`, `\n` or
`\r`; a terminator at the very end of the string does not open a new
(empty) final line, matching Python `str.splitlines()`. -/
def splitlinesAux : List Char → List Char → List (List Char)
  | [], acc => [acc.reverse]
  | '\r' :: '\n' :: [], acc => [acc.reverse]
  | '\r' :: '\n' :: rest, acc => acc.reverse :: splitlinesAux rest []
  | '\r' :: [], acc => [acc.reverse]
  | '\r' :: rest, acc => acc.reverse :: splitlinesAux rest []
  | '\n' :: [], acc => [acc.reverse]
  | '\n' :: rest, acc => acc.reverse :: splitlinesAux rest []
  | c :: rest, acc => splitlinesAux rest (c :: acc)

/-- Model of Python's `str.splitlines()` restricted to the `\n`, `\r` and
`\r\n` terminators (the ones occurring in this program's inputs). -/
def pySplitlines (s : String) : List String :=
  if s = "" then [] else (splitlinesAux s.data []).map (fun l => ⟨l⟩)

/-- Accumulator pass for `pySplitWs`: split on runs of whitespace,
producing no empty tokens. -/
def splitWsAux : List Char → List Char → List (List Char)
  | [], [] => []
  | [], acc => [acc.reverse]
  | c :: rest, acc =>
    if pyIsSpace c then
      if acc = [] then splitWsAux rest []
      else acc.reverse :: splitWsAux rest []
    else splitWsAux rest (c :: acc)

/-- Model of Python's `str.split()` with no separator: whitespace runs
delimit tokens and leading/trailing whitespace yields no empty tokens. -/
def pySplitWs (s : String) : List String :=
  (splitWsAux s.data []).map (fun l => ⟨l⟩)

/-- Embedding of `sanitize_chat_id`: keep exactly the characters that are
Python-alphanumeric or in `"-_"`. -/
def sanitize_chat_id (s : String) : String :=
  ⟨s.data.filter (fun c => pyIsAlnum c || c == '-' || c == '_')⟩

example : sanitize_chat_id "abc!123" = "abc123" := by decide
example : pyStrip "  a b " = "a b" := by decide
example : pySplitlines "NAME ID\nm1 x\n" = ["NAME ID", "m1 x"] := by decide
example : pySplitWs " m1  x " = ["m1", "x"] := by decide
example : sanitize_chat_id "é" = "é" := by decide

/-- The process-wide `model_status` record: exactly the three keys the
Python dict is created with. -/
structure Status where
  state : String
  message : String
  model : String
deriving DecidableEq, Repr

/-- Embedding of `update_status`: inside one `status_lock` critical
section, all three fields of the previous status are assigned. -/
def update_status_on (prev : Status) (state message model : String) : Status :=
  { prev with state := state, message := message, model := model }

/-- One lock-serialized schedule of status writes: each element is the
`(state, message, model)` argument triple of one `update_status` call,
in the order in which the writers entered the critical section. -/
def runStatusWrites (init : Status) (writes : List (String × String × String)) : Status :=
  writes.foldl (fun st w => update_status_on st w.1 w.2.1 w.2.2) init

/-- Result of one `subprocess.run` invocation. -/
structure CompletedProcess where
  returncode : Int
  stdout : String
  stderr : String
deriving DecidableEq, Repr

/-- The external `ollama` CLI, as the program observes it: the completed
process of `ollama list`, and of `ollama pull <model>` per model. -/
structure OllamaEnv where
  listProc : CompletedProcess
  pullProc : String → CompletedProcess

/-- Embedding of `run_ollama_command` for the two argument vectors the
program passes; any other vector is never invoked by this program. -/
def run_ollama_command (env : OllamaEnv) : List String → CompletedProcess
  | ["ollama", "list"] => env.listProc
  | ["ollama", "pull", model] => env.pullProc model
  | _ => ⟨1, "", ""⟩

/-- Embedding of `list_models`: run `ollama list`; on non-zero exit raise
`RuntimeError` with the stripped stderr (or a default). Otherwise strip
the stdout, split into lines, drop the header line, and take the first
whitespace token of every non-blank remaining line. -/
def list_models (env : OllamaEnv) : Except String (List String) :=
  let result := run_ollama_command env ["ollama", "list"]
  if result.returncode ≠ 0 then
    .error (orDefault (pyStrip result.stderr) "Failed to list models.")
  else
    let lines := pySplitlines (pyStrip result.stdout)
    if lines.length ≤ 1 then .ok []
    else
      -- line.split()[0]; the blank-line guard makes the token list non-empty
      .ok ((lines.drop 1).filterMap (fun line =>
        if pyStrip line = "" then none
        else match pySplitWs line with
          | [] => none
          | tok :: _ => some tok))

/-- Embedding of `ensure_model_pulled`. Returns the outcome (`.error` is a
raised `RuntimeError`), the argument triples of the `update_status` calls
it made, and the `run_ollama_command` argument vectors it invoked, in
order. The caller folds the status writes onto the process state with
`runStatusWrites`. -/
def ensure_model_pulled (env : OllamaEnv) (model : String) :
    Except String Unit × List (String × String × String) × List (List String) :=
  let w1 := ("checking", "Checking model...", model)
  match list_models env with
  | .error e => (.error e, [w1], [["ollama", "list"]])
  | .ok models =>
    if model ∈ models then
      (.ok (), [w1, ("loading", "Loading model...", model)], [["ollama", "list"]])
    else
      let w2 := ("pulling", "Pulling model...", model)
      let result := run_ollama_command env ["ollama", "pull", model]
      if result.returncode ≠ 0 then
        (.error (orDefault (pyStrip result.stderr) "Failed to pull model."),
          [w1, w2], [["ollama", "list"], ["ollama", "pull", model]])
      else
        (.ok (), [w1, w2, ("loading", "Loading model...", model)],
          [["ollama", "list"], ["ollama", "pull", model]])

/-- One `{role, content}` message of a chat request or transcript. -/
structure PyMsg where
  role : String
  content : String
deriving DecidableEq, Repr

/-- The `ollama.chat` HTTP call, as the program observes it: given a model
and a message list it either raises (`.error`) or returns
`response.message.content`, which may be `None`. A falsy
`response.message` is folded into the `none` content case. -/
def ChatCall := String → List PyMsg → Except String (Option String)

/-- One parsed transcript JSON file: the five fields `save_chat` writes,
with the `payload.get(..., default)` defaults already applied. -/
structure Payload where
  id : String
  title : String
  model : String
  messages : List PyMsg
  updatedAt : String
deriving DecidableEq, Repr

/-- The chats directory: file key (`<key>.json`) to parsed payload. -/
def Store := String → Option Payload

/-- The JSON body `{ok: false, error}` of an error response. -/
structure ErrBody where
  ok : Bool
  error : String
deriving DecidableEq, Repr

/-- Embedding of `extract_first_user_message`: the stripped content of the
first message whose role is `"user"`, else the empty string. -/
def extract_first_user_message (messages : List PyMsg) : String :=
  match messages.find? (fun m => m.role == "user") with
  | some m => pyStrip m.content
  | none => ""

/-- Embedding of `generate_chat_title`: empty string when either argument
is falsy; otherwise one chat call whose stripped, quote-stripped content
is truncated to 80 characters. A raised exception propagates
(`.error`). -/
def generate_chat_title (call : ChatCall) (first_message model : String) :
    Except String String :=
  if first_message = "" ∨ model = "" then .ok ""
  else
    match call model
      [⟨"system", "Create a short chat title, 3 to 6 words. Return only the title."⟩,
       ⟨"user", first_message⟩] with
    | .error e => .error e
    | .ok none => .ok ""
    | .ok (some content) => .ok (pyTake 80 (pyStripQuotes (pyStrip content)))

/-- The JSON body fields of a `POST /save-chat` request, with the
`data.get` string conversions already applied. The handler's
`isinstance(messages, list)` check cannot fail in this embedding, where
`messages` is a list by type. -/
structure SaveRequest where
  id : String
  title : String
  model : String
  messages : List PyMsg
deriving DecidableEq, Repr

/-- Response of the `save_chat` handler. -/
inductive SaveOutcome where
  | badRequest (body : ErrBody)
  | ok (id : String)
deriving DecidableEq, Repr

/-- The title computation of the `save_chat` handler, factored out:
retain a supplied (stripped) title; else reuse the stripped title of the
existing transcript, if any; else, when a first user message and a model
are present, auto-generate one, swallowing any raised exception into the
empty title (`except Exception: title = ""`). -/
def save_title (call : ChatCall) (data : SaveRequest) (existing : Option Payload) : String :=
  let title0 := pyStrip data.title
  -- if existing and not title: title = str(existing.get("title", "")).strip()
  let title1 :=
    match existing with
    | some p => if title0 = "" then pyStrip p.title else title0
    | none => title0
  if title1 = "" then
    let first_message := extract_first_user_message data.messages
    if first_message ≠ "" ∧ pyStrip data.model ≠ "" then
      match generate_chat_title call first_message (pyStrip data.model) with
      | .ok t => t
      | .error _ => ""
    else title1
  else title1

/-- Embedding of the `save_chat` handler body.  `now` stands for
`f"{datetime.utcnow().isoformat()}Z"` at the moment of the request. -/
def save_chat (call : ChatCall) (data : SaveRequest) (store : Store) (now : String) :
    SaveOutcome × Store :=
  let chat_id := sanitize_chat_id (pyStrip data.id)
  let model := pyStrip data.model
  if chat_id = "" then (.badRequest ⟨false, "Chat id is required."⟩, store)
  else
    -- existing = load_chat_payload(chat_id)
    let title := save_title call data (store chat_id)
    let payload : Payload := ⟨chat_id, title, model, data.messages, now⟩
    (.ok chat_id, fun k => if k = chat_id then some payload else store k)

/-- Response of the `load_chat` handler. -/
inductive LoadOutcome where
  | badRequest (body : ErrBody)
  | notFound (body : ErrBody)
  | ok (payload : Payload)
deriving DecidableEq, Repr

/-- Embedding of the `GET /chats/<chat_id>` handler body. -/
def load_chat (store : Store) (chat_id : String) : LoadOutcome :=
  let safe_id := sanitize_chat_id chat_id
  if safe_id = "" then .badRequest ⟨false, "Chat id is required."⟩
  else
    match store safe_id with
    | none => .notFound ⟨false, "Chat not found."⟩
    | some payload => .ok payload

/-- One `{id, title, model, updatedAt}` projection in the `GET /chats`
listing. -/
structure ChatSummary where
  id : String
  title : String
  model : String
  updatedAt : String
deriving DecidableEq, Repr

/-- Body of the `list_saved_chats` loop for one parsed payload: skip it
when its stored id sanitizes to empty, else project it. -/
def payloadSummary (payload : Payload) : Option ChatSummary :=
  let chat_id := sanitize_chat_id (pyStrip payload.id)
  if chat_id = "" then none
  else some ⟨chat_id, payload.title, payload.model, payload.updatedAt⟩

/-- One iteration of the `list_saved_chats` loop over a file: a file whose
content fails to parse (`none`) is skipped by the `except: continue`. -/
def chatFileSummary (file : Option Payload) : Option ChatSummary :=
  file.bind payloadSummary

/-- Lexicographic strict comparison of character lists by code point:
Python's `<` on strings. -/
def charListLt : List Char → List Char → Bool
  | [], [] => false
  | [], _ :: _ => true
  | _ :: _, [] => false
  | a :: as, b :: bs =>
    if a.toNat < b.toNat then true
    else if b.toNat < a.toNat then false
    else charListLt as bs

/-- Lexicographic non-strict comparison of character lists by code point:
Python's `<=` on strings. -/
def charListLe : List Char → List Char → Bool
  | [], _ => true
  | _ :: _, [] => false
  | a :: as, b :: bs =>
    if a.toNat < b.toNat then true
    else if b.toNat < a.toNat then false
    else charListLe as bs

theorem charListLe_total : ∀ a b : List Char, charListLe a b = true ∨ charListLe b a = true
  | [], _ => Or.inl rfl
  | _ :: _, [] => Or.inr rfl
  | a :: as, b :: bs => by
    rcases Nat.lt_trichotomy a.toNat b.toNat with h | h | h
    · left; simp [charListLe, h]
    · have hne : ¬ a.toNat < b.toNat := by omega
      have hne' : ¬ b.toNat < a.toNat := by omega
      rcases charListLe_total as bs with ih | ih
      · left; simp [charListLe, hne, hne', ih]
      · right; simp [charListLe, hne, hne', ih]
    · right; simp [charListLe, h]

theorem charListLe_trans : ∀ a b c : List Char,
    charListLe a b = true → charListLe b c = true → charListLe a c = true
  | [], _, _ => fun _ _ => rfl
  | _ :: _, [], _ => by intro h _; simp [charListLe] at h
  | _ :: _, _ :: _, [] => by intro _ h; simp [charListLe] at h
  | a :: as, b :: bs, c :: cs => by
    intro h1 h2
    simp only [charListLe] at h1 h2 ⊢
    rcases Nat.lt_trichotomy a.toNat b.toNat with hab | hab | hab <;>
      rcases Nat.lt_trichotomy b.toNat c.toNat with hbc | hbc | hbc
    · simp [show a.toNat < c.toNat by omega]
    · simp [show a.toNat < c.toNat by omega]
    · simp [show ¬ b.toNat < c.toNat by omega, hbc] at h2
    · simp [show a.toNat < c.toNat by omega]
    · have h1' := h1
      simp [show ¬ a.toNat < b.toNat by omega, show ¬ b.toNat < a.toNat by omega] at h1'
      have h2' := h2
      simp [show ¬ b.toNat < c.toNat by omega, show ¬ c.toNat < b.toNat by omega] at h2'
      simp [show ¬ a.toNat < c.toNat by omega, show ¬ c.toNat < a.toNat by omega]
      exact charListLe_trans as bs cs h1' h2'
    · simp [show ¬ b.toNat < c.toNat by omega, hbc] at h2
    · simp [show ¬ a.toNat < b.toNat by omega, hab] at h1
    · simp [show ¬ a.toNat < b.toNat by omega, hab] at h1
    · simp [show ¬ a.toNat < b.toNat by omega, hab] at h1

theorem charListLt_of_le_of_ne : ∀ a b : List Char,
    charListLe a b = true → a ≠ b → charListLt a b = true
  | [], [] => fun _ h => absurd rfl h
  | [], _ :: _ => fun _ _ => rfl
  | _ :: _, [] => by intro h _; simp [charListLe] at h
  | a :: as, b :: bs => by
    intro h1 h2
    simp only [charListLe] at h1
    simp only [charListLt]
    by_cases hab : a.toNat < b.toNat
    · simp [hab]
    · by_cases hba : b.toNat < a.toNat
      · simp [hab, hba] at h1
      · have hn : a.toNat = b.toNat := by omega
        have hab' : a = b := Char.ext (UInt32.toNat.inj hn)
        subst hab'
        simp [hab, hba] at h1 ⊢
        exact charListLt_of_le_of_ne as bs h1 (fun h => h2 (by rw [h]))

/-- Python's `<=` on strings: code-point lexicographic. -/
def pyStrLe (a b : String) : Bool := charListLe a.data b.data

/-- Python's `<` on strings: code-point lexicographic. -/
def pyStrLt (a b : String) : Bool := charListLt a.data b.data

/-- Sort relation of `chats.sort(key=lambda item: item.get("updatedAt", ""),
reverse=True)`: descending by `updatedAt`. -/
def summaryGe (a b : ChatSummary) : Prop := pyStrLe b.updatedAt a.updatedAt = true

instance : DecidableRel summaryGe := fun a b =>
  inferInstanceAs (Decidable (pyStrLe b.updatedAt a.updatedAt = true))

instance : IsTotal ChatSummary summaryGe :=
  ⟨fun a b => (charListLe_total b.updatedAt.data a.updatedAt.data).imp id id⟩

instance : IsTrans ChatSummary summaryGe :=
  ⟨fun _ _ _ h1 h2 => charListLe_trans _ _ _ h2 h1⟩

/-- Embedding of `list_saved_chats`: the files of the chats directory, in
glob order, mapped through the loop body and sorted descending by
`updatedAt` with a stable sort (Python's `list.sort` is stable; with
distinct keys any stable sort realizes it). -/
def list_saved_chats (files : List (Option Payload)) : List ChatSummary :=
  List.insertionSort summaryGe (files.filterMap chatFileSummary)

example :
    list_saved_chats
      [some ⟨"b!", "T1", "m", [], "2"⟩, none,
       some ⟨"!", "skip", "m", [], "9"⟩, some ⟨"a", "T2", "m", [], "1"⟩] =
      [⟨"b", "T1", "m", "2"⟩, ⟨"a", "T2", "m", "1"⟩] := by decide

/-- The mutable process-wide state the `/chat` and `/set-model` handlers
touch: the `current_model` global and the `model_status` record. -/
structure AppState where
  current_model : String
  model_status : Status
deriving DecidableEq, Repr

/-- External world of the `/chat` handler: the `ollama` CLI and the
`ollama.chat` HTTP call. -/
structure ChatEnv where
  cli : OllamaEnv
  call : ChatCall

/-- The JSON body fields of a `POST /chat` request. -/
structure ChatRequest where
  prompt : String
  model : String
deriving DecidableEq, Repr

/-- Response of the `chat_prompt` handler. `uncaught` models an exception
that propagates out of the handler: the `chat(...)` call at the end of
`chat_prompt` is outside the `try` block, so an exception it raises is
not converted to a JSON body by the handler. -/
inductive ChatOutcome where
  | badRequest (body : ErrBody)
  | serverError (body : ErrBody)
  | success (model : String) (response : Option String)
  | uncaught (exc : String)
deriving DecidableEq, Repr

/-- Embedding of the `POST /chat` handler body `chat_prompt`. -/
def chat_prompt (env : ChatEnv) (data : ChatRequest) (st : AppState) :
    ChatOutcome × AppState :=
  let prompt := pyStrip data.prompt
  let model := orDefault (pyStrip data.model) st.current_model
  if prompt = "" then (.badRequest ⟨false, "Prompt is required."⟩, st)
  else if model = "" then (.badRequest ⟨false, "Model is required."⟩, st)
  else
    match ensure_model_pulled env.cli model with
    | (.error exc, writes, _) =>
      -- except branch: update_status("error", ...) and a 500 JSON body
      let msg := orDefault exc "Failed to pull model."
      let status1 := runStatusWrites st.model_status (writes ++ [("error", msg, model)])
      (.serverError ⟨false, msg⟩, { st with model_status := status1 })
    | (.ok _, writes, _) =>
      -- current_model = model; update_status("ready", ...)
      let st1 : AppState := ⟨model,
        runStatusWrites st.model_status (writes ++ [("ready", "Model ready.", model)])⟩
      match env.call model [⟨"user", prompt⟩] with
      | .error exc => (.uncaught exc, st1)
      | .ok content => (.success model content, st1)

/-! ## Helper lemmas -/

theorem filter_idem (p : α → Bool) (l : List α) :
    (l.filter p).filter p = l.filter p := by
  induction l with
  | nil => rfl
  | cons a l ih =>
    by_cases h : p a = true
    · simp [List.filter_cons, h, ih]
    · simp only [Bool.not_eq_true] at h
      simp [List.filter_cons, h, ih]

theorem filter_dropWhile (p q : α → Bool) (l : List α)
    (hpq : ∀ a, q a = true → p a = false) :
    (l.dropWhile q).filter p = l.filter p := by
  induction l with
  | nil => rfl
  | cons a l ih =>
    by_cases h : q a = true
    · simp [List.dropWhile_cons_of_pos h, ih, List.filter_cons, hpq a h]
    · simp only [Bool.not_eq_true] at h
      rw [List.dropWhile_cons_of_neg (by simp [h])]

theorem sanitizePred_of_space (c : Char) (h : pyIsSpace c = true) :
    (pyIsAlnum c || c == '-' || c == '_') = false := by
  simp only [pyIsSpace, Bool.or_eq_true, beq_iff_eq] at h
  rcases h with ((((h | h) | h) | h) | h) | h <;> subst h <;> decide

theorem filter_stripWhile (p q : α → Bool) (l : List α)
    (hpq : ∀ a, q a = true → p a = false) :
    (stripWhile q l).filter p = l.filter p := by
  unfold stripWhile
  rw [List.filter_reverse, filter_dropWhile p q _ hpq, List.filter_reverse,
    List.reverse_reverse, filter_dropWhile p q _ hpq]

/-- Stripping whitespace before sanitizing is redundant: `sanitize_chat_id`
removes whitespace anyway. -/
theorem sanitize_pyStrip (s : String) :
    sanitize_chat_id (pyStrip s) = sanitize_chat_id s := by
  unfold sanitize_chat_id pyStrip
  exact congrArg String.mk
    (filter_stripWhile _ pyIsSpace s.data sanitizePred_of_space)

theorem sanitize_idem (s : String) :
    sanitize_chat_id (sanitize_chat_id s) = sanitize_chat_id s := by
  unfold sanitize_chat_id
  exact congrArg String.mk (filter_idem _ s.data)

/-- A summary produced from a payload carries the payload's timestamp. -/
theorem payloadSummary_updatedAt {p : Payload} {s : ChatSummary}
    (h : payloadSummary p = some s) : s.updatedAt = p.updatedAt := by
  unfold payloadSummary at h
  by_cases hc : sanitize_chat_id (pyStrip p.id) = ""
  · rw [if_pos hc] at h; cases h
  · rw [if_neg hc] at h
    cases Option.some.inj h
    rfl

/-- A summary produced from a payload carries the sanitized stored id. -/
theorem payloadSummary_id {p : Payload} {s : ChatSummary}
    (h : payloadSummary p = some s) :
    s.id = sanitize_chat_id (pyStrip p.id) ∧ s.id ≠ "" := by
  unfold payloadSummary at h
  by_cases hc : sanitize_chat_id (pyStrip p.id) = ""
  · rw [if_pos hc] at h; cases h
  · rw [if_neg hc] at h
    cases Option.some.inj h
    exact ⟨rfl, hc⟩

/-- Files that fail to parse contribute nothing to the summary list. -/
theorem filterMap_chatFileSummary_filter (files : List (Option Payload)) :
    (files.filter Option.isSome).filterMap chatFileSummary =
      files.filterMap chatFileSummary := by
  induction files with
  | nil => rfl
  | cons o rest ih =>
    cases o with
    | none => simpa [List.filter_cons, chatFileSummary] using ih
    | some p => simp [List.filter_cons, List.filterMap_cons, ih]

theorem update_status_on_mk (prev : Status) (s m d : String) :
    update_status_on prev s m d = ⟨s, m, d⟩ := by
  cases prev; rfl

/-- The last status write of a schedule determines the whole record. -/
theorem runStatusWrites_last (init : Status) (ws : List (String × String × String))
    (s m d : String) :
    runStatusWrites init (ws ++ [(s, m, d)]) = ⟨s, m, d⟩ := by
  unfold runStatusWrites
  rw [List.foldl_append]
  exact update_status_on_mk
    (List.foldl (fun st w => update_status_on st w.1 w.2.1 w.2.2) init ws) s m d

/-- Behavior of `chat_prompt` when `ensure_model_pulled` raises: the
`except` branch records status `error` and returns the 500 body. -/
theorem chat_prompt_ensure_error (env : ChatEnv) (data : ChatRequest) (st : AppState)
    (m e : String)
    (hp : pyStrip data.prompt ≠ "")
    (hm : orDefault (pyStrip data.model) st.current_model = m)
    (hm' : m ≠ "")
    (he : (ensure_model_pulled env.cli m).1 = .error e) :
    chat_prompt env data st =
      (.serverError ⟨false, orDefault e "Failed to pull model."⟩,
       { st with model_status := ⟨"error", orDefault e "Failed to pull model.", m⟩ }) := by
  rcases hres : ensure_model_pulled env.cli m with ⟨oc, writes, cmds⟩
  rw [hres] at he
  simp only at he
  subst he
  simp only [chat_prompt, hm, if_neg hp, if_neg hm', hres]
  rw [runStatusWrites_last]

/-- Behavior of `chat_prompt` when `ensure_model_pulled` succeeds but the
`chat(...)` call raises: the exception escapes the handler (the call is
outside the `try` block) and the status is left at `ready`. -/
theorem chat_prompt_chat_error (env : ChatEnv) (data : ChatRequest) (st : AppState)
    (m e : String)
    (hp : pyStrip data.prompt ≠ "")
    (hm : orDefault (pyStrip data.model) st.current_model = m)
    (hm' : m ≠ "")
    (he : (ensure_model_pulled env.cli m).1 = .ok ())
    (hc : env.call m [⟨"user", pyStrip data.prompt⟩] = .error e) :
    chat_prompt env data st = (.uncaught e, ⟨m, ⟨"ready", "Model ready.", m⟩⟩) := by
  rcases hres : ensure_model_pulled env.cli m with ⟨oc, writes, cmds⟩
  rw [hres] at he
  simp only at he
  subst he
  simp only [chat_prompt, hm, if_neg hp, if_neg hm', hres, hc]
  rw [runStatusWrites_last]

/-- Behavior of `chat_prompt` on full success: `current_model` is set to
the resolved model and the status ends at `ready`. -/
theorem chat_prompt_ok (env : ChatEnv) (data : ChatRequest) (st : AppState)
    (m : String) (r : Option String)
    (hp : pyStrip data.prompt ≠ "")
    (hm : orDefault (pyStrip data.model) st.current_model = m)
    (hm' : m ≠ "")
    (he : (ensure_model_pulled env.cli m).1 = .ok ())
    (hc : env.call m [⟨"user", pyStrip data.prompt⟩] = .ok r) :
    chat_prompt env data st = (.success m r, ⟨m, ⟨"ready", "Model ready.", m⟩⟩) := by
  rcases hres : ensure_model_pulled env.cli m with ⟨oc, writes, cmds⟩
  rw [hres] at he
  simp only at he
  subst he
  simp only [chat_prompt, hm, if_neg hp, if_neg hm', hres, hc]
  rw [runStatusWrites_last]

/-! ## Claim theorems -/

/-- C3: sanitization is idempotent: for every string `s`,
`sanitize(sanitize(s)) = sanitize(s)`. -/
theorem C3_sanitize_idempotent (s : String) :
    sanitize_chat_id (sanitize_chat_id s) = sanitize_chat_id s :=
  sanitize_idem s

/-- The character class `[A-Za-z0-9_-]` that the claim asserts for
sanitized output. This definition follows the specification's words, for
comparison with the code's `sanitize_chat_id`; `Char.isAlphanum` is
exactly ASCII `[A-Za-z0-9]`. -/
def specAsciiIdChar (c : Char) : Bool :=
  c.isAlphanum || c == '-' || c == '_'

/-- C2 counterexample: `sanitize("é") = "é"`, and `'é'` is not in
`[A-Za-z0-9_-]`. Python's Unicode-aware `str.isalnum` returns `True` for
`'é'`, so `sanitize_chat_id` keeps it, refuting the claim that the
sanitized output contains only ASCII `[A-Za-z0-9_-]` characters. -/
theorem C2_counterexample :
    sanitize_chat_id "é" = "é" ∧ "é".data.all specAsciiIdChar = false := by
  decide

/-- C2 (amended): for every string `s`, `sanitize(s)` contains only
characters that are alphanumeric in Python's Unicode-aware sense or are
`'-'` or `'_'` — not only ASCII ones. -/
theorem C2_sanitize_only_allowed_chars (s : String) :
    ∀ c ∈ (sanitize_chat_id s).data, (pyIsAlnum c || c == '-' || c == '_') = true := by
  intro c hc
  exact (List.mem_filter.mp hc).2

/-- Witness for C2: the character `'a'` of `sanitize("a!")`. -/
theorem C2_sanitize_only_allowed_chars_witness :
    (pyIsAlnum 'a' || 'a' == '-' || 'a' == '_') = true :=
  C2_sanitize_only_allowed_chars "a!" 'a' (by decide)

/-- C9: each `update_status` call replaces all three fields of the status
record inside one lock-protected critical section, so the status observed
after any lock-serialized sequence of writes is the initial record (no
writes yet) or exactly the full `(state, message, model)` triple of the
last write — independent of every earlier value, never a mix of two
writes. -/
theorem C9_status_wholesale (init : Status) (ws : List (String × String × String)) :
    runStatusWrites init ws =
      ws.getLast?.elim init (fun w => ⟨w.1, w.2.1, w.2.2⟩) := by
  induction ws generalizing init with
  | nil => rfl
  | cons w ws ih =>
    cases ws with
    | nil => rfl
    | cons x xs =>
      rw [List.getLast?_cons_cons]
      have step : runStatusWrites init (w :: x :: xs) =
          runStatusWrites (update_status_on init w.1 w.2.1 w.2.2) (x :: xs) := rfl
      rw [step, ih]
      rcases h : (x :: xs).getLast? with _ | y
      · simp at h
      · rfl

/-- C7: a `GET /chats/<id>` request whose sanitized id is non-empty but
has no transcript file returns HTTP 404 with body
`{"ok": false, "error": "Chat not found."}`. -/
theorem C7_load_missing_is_404 (store : Store) (chat_id : String)
    (h1 : sanitize_chat_id chat_id ≠ "")
    (h2 : store (sanitize_chat_id chat_id) = none) :
    load_chat store chat_id = .notFound ⟨false, "Chat not found."⟩ := by
  unfold load_chat
  rw [if_neg h1, h2]

/-- Witness for C7: `GET /chats/doesnotexist` against an empty chats
directory. -/
theorem C7_witness :
    load_chat (fun _ => none) "doesnotexist" = .notFound ⟨false, "Chat not found."⟩ :=
  C7_load_missing_is_404 (fun _ => none) "doesnotexist" (by decide) rfl

/-- C5: when `ListModels` succeeds, `EnsurePulled` invokes the external
commands `ollama list` only (model present: the pull command is never
invoked) or `ollama list` followed by exactly one `ollama pull` (model
absent). -/
theorem C5_ensure_pull_exactly_when_absent (env : OllamaEnv) (model : String)
    (models : List String) (h : list_models env = .ok models) :
    (ensure_model_pulled env model).2.2 =
      if model ∈ models then [["ollama", "list"]]
      else [["ollama", "list"], ["ollama", "pull", model]] := by
  unfold ensure_model_pulled
  rw [h]
  by_cases hm : model ∈ models
  · simp [hm]
  · simp only [hm, if_false]
    split <;> rfl

/-- Witness for C5: a listing with model `m1` installed; `EnsurePulled`
of `m1` never pulls, `EnsurePulled` of `m2` pulls exactly once. -/
theorem C5_witness :
    (ensure_model_pulled ⟨⟨0, "NAME ID\nm1 abc\n", ""⟩, fun _ => ⟨0, "", ""⟩⟩ "m1").2.2 =
      [["ollama", "list"]] ∧
    (ensure_model_pulled ⟨⟨0, "NAME ID\nm1 abc\n", ""⟩, fun _ => ⟨0, "", ""⟩⟩ "m2").2.2 =
      [["ollama", "list"], ["ollama", "pull", "m2"]] := by
  constructor
  · have h := C5_ensure_pull_exactly_when_absent
      ⟨⟨0, "NAME ID\nm1 abc\n", ""⟩, fun _ => ⟨0, "", ""⟩⟩ "m1" ["m1"] rfl
    simpa using h
  · have h := C5_ensure_pull_exactly_when_absent
      ⟨⟨0, "NAME ID\nm1 abc\n", ""⟩, fun _ => ⟨0, "", ""⟩⟩ "m2" ["m1"] rfl
    simpa using h

/-- C1 counterexample: a `POST /chat` request with non-empty prompt
`"hi"` and resolvable model `"m1"` (present in the listing), where the
`chat(...)` call raises `"boom"`. The claim says any failure while
handling the request — including during the Chat call — records status
`"error"` and returns HTTP 500 with a `{ok:false, error}` body, and that
no handler-level exception escapes. Here instead the exception escapes
the handler uncaught and the status is left at `"ready"`, because the
`chat(...)` call sits outside the handler's `try` block. -/
theorem C1_counterexample :
    chat_prompt
      ⟨⟨⟨0, "NAME ID\nm1 abc\n", ""⟩, fun _ => ⟨0, "", ""⟩⟩, fun _ _ => .error "boom"⟩
      ⟨"hi", "m1"⟩ ⟨"", ⟨"idle", "", ""⟩⟩ =
      (.uncaught "boom", ⟨"m1", ⟨"ready", "Model ready.", "m1"⟩⟩) := by
  decide

/-- C1 (amended): for every `POST /chat` request with a non-empty prompt
and a resolvable model, a failure raised during `EnsurePulled` is caught:
status is recorded as `"error"` with the failure message and the handler
returns HTTP 500 with a `{ok:false, error}` body. A failure raised by the
`Chat` call itself, however, propagates out of the handler uncaught, with
the status left at `"ready"` — the `chat(...)` call is outside the `try`
block. -/
theorem C1_ensure_caught_chat_escapes (env : ChatEnv) (data : ChatRequest)
    (st : AppState) (m : String)
    (hp : pyStrip data.prompt ≠ "")
    (hm : orDefault (pyStrip data.model) st.current_model = m)
    (hm' : m ≠ "") :
    chat_prompt env data st =
      match (ensure_model_pulled env.cli m).1,
          env.call m [⟨"user", pyStrip data.prompt⟩] with
      | .error e, _ =>
        (.serverError ⟨false, orDefault e "Failed to pull model."⟩,
         { st with model_status := ⟨"error", orDefault e "Failed to pull model.", m⟩ })
      | .ok _, .error e => (.uncaught e, ⟨m, ⟨"ready", "Model ready.", m⟩⟩)
      | .ok _, .ok r => (.success m r, ⟨m, ⟨"ready", "Model ready.", m⟩⟩) := by
  rcases he : (ensure_model_pulled env.cli m).1 with e | u
  · exact chat_prompt_ensure_error env data st m e hp hm hm' he
  · cases u
    rcases hc : env.call m [⟨"user", pyStrip data.prompt⟩] with e | r
    · exact chat_prompt_chat_error env data st m e hp hm hm' he hc
    · exact chat_prompt_ok env data st m r hp hm hm' he hc

/-- Witness for C1 (amended): a request whose `EnsurePulled` fails
because `ollama list` exits non-zero with stderr `"no ollama"`. -/
theorem C1_ensure_caught_chat_escapes_witness :
    chat_prompt
      ⟨⟨⟨1, "", "no ollama"⟩, fun _ => ⟨0, "", ""⟩⟩, fun _ _ => .ok (some "hello")⟩
      ⟨"hi", "m1"⟩ ⟨"", ⟨"idle", "", ""⟩⟩ =
      match (ensure_model_pulled ⟨⟨1, "", "no ollama"⟩, fun _ => ⟨0, "", ""⟩⟩ "m1").1,
          Except.ok (ε := String) (some "hello") with
      | .error e, _ =>
        (.serverError ⟨false, orDefault e "Failed to pull model."⟩,
         (⟨"", ⟨"error", orDefault e "Failed to pull model.", "m1"⟩⟩ : AppState))
      | .ok _, .error e => (.uncaught e, ⟨"m1", ⟨"ready", "Model ready.", "m1"⟩⟩)
      | .ok _, .ok r => (.success "m1" r, ⟨"m1", ⟨"ready", "Model ready.", "m1"⟩⟩) :=
  C1_ensure_caught_chat_escapes
    ⟨⟨⟨1, "", "no ollama"⟩, fun _ => ⟨0, "", ""⟩⟩, fun _ _ => .ok (some "hello")⟩
    ⟨"hi", "m1"⟩ ⟨"", ⟨"idle", "", ""⟩⟩ "m1" (by decide) rfl (by decide)

/-- C10: a successful `POST /chat` with an explicit model `m` sets the
process-wide `current_model` to `m` as a side effect, so a later
`POST /chat` that omits the model field (with no intervening change to
`current_model`) falls back to `m`, the model of the last successful
chat — not only to a model set via `POST /set-model`. -/
theorem C10_chat_sets_fallback_model (env : ChatEnv) (d1 d2 : ChatRequest)
    (st : AppState) (m : String) (r1 r2 : Option String)
    (h1 : pyStrip d1.prompt ≠ "")
    (h2 : pyStrip d1.model = m)
    (h3 : m ≠ "")
    (h4 : (ensure_model_pulled env.cli m).1 = .ok ())
    (h5 : env.call m [⟨"user", pyStrip d1.prompt⟩] = .ok r1)
    (h6 : pyStrip d2.model = "")
    (h7 : pyStrip d2.prompt ≠ "")
    (h8 : env.call m [⟨"user", pyStrip d2.prompt⟩] = .ok r2) :
    (chat_prompt env d1 st).1 = .success m r1 ∧
    (chat_prompt env d1 st).2.current_model = m ∧
    (chat_prompt env d2 (chat_prompt env d1 st).2).1 = .success m r2 := by
  have hm1 : orDefault (pyStrip d1.model) st.current_model = m := by
    rw [h2]; unfold orDefault; rw [if_neg h3]
  have step1 := chat_prompt_ok env d1 st m r1 h1 hm1 h3 h4 h5
  rw [step1]
  refine ⟨rfl, rfl, ?_⟩
  have hm2 : orDefault (pyStrip d2.model)
      (AppState.mk m ⟨"ready", "Model ready.", m⟩).current_model = m := by
    rw [h6]; rfl
  have step2 := chat_prompt_ok env d2 ⟨m, ⟨"ready", "Model ready.", m⟩⟩ m r2 h7 hm2 h3 h4 h8
  rw [step2]

/-- Witness for C10: chat with explicit model `m1`, then chat with the
model field empty; the second request resolves to `m1`. -/
theorem C10_witness :
    (chat_prompt
      ⟨⟨⟨0, "NAME ID\nm1 abc\n", ""⟩, fun _ => ⟨0, "", ""⟩⟩, fun _ _ => .ok (some "re")⟩
      ⟨"hi", "m1"⟩ ⟨"", ⟨"idle", "", ""⟩⟩).1 = .success "m1" (some "re") ∧
    (chat_prompt
      ⟨⟨⟨0, "NAME ID\nm1 abc\n", ""⟩, fun _ => ⟨0, "", ""⟩⟩, fun _ _ => .ok (some "re")⟩
      ⟨"hi", "m1"⟩ ⟨"", ⟨"idle", "", ""⟩⟩).2.current_model = "m1" ∧
    (chat_prompt
      ⟨⟨⟨0, "NAME ID\nm1 abc\n", ""⟩, fun _ => ⟨0, "", ""⟩⟩, fun _ _ => .ok (some "re")⟩
      ⟨"later", ""⟩
      (chat_prompt
        ⟨⟨⟨0, "NAME ID\nm1 abc\n", ""⟩, fun _ => ⟨0, "", ""⟩⟩, fun _ _ => .ok (some "re")⟩
        ⟨"hi", "m1"⟩ ⟨"", ⟨"idle", "", ""⟩⟩).2).1 = .success "m1" (some "re") :=
  C10_chat_sets_fallback_model
    ⟨⟨⟨0, "NAME ID\nm1 abc\n", ""⟩, fun _ => ⟨0, "", ""⟩⟩, fun _ _ => .ok (some "re")⟩
    ⟨"hi", "m1"⟩ ⟨"later", ""⟩ ⟨"", ⟨"idle", "", ""⟩⟩ "m1" (some "re") (some "re")
    (by decide) rfl (by decide) rfl rfl rfl (by decide) rfl

/-- C4 counterexample: saving with model `" m "` and loading back returns
model `"m"`, not the input `" m "`: `save_chat` strips the model string,
so the loaded transcript does not carry "the same model" whenever the
input model has surrounding whitespace. Id and messages do round-trip. -/
theorem C4_counterexample :
    load_chat
      (save_chat (fun _ _ => .error "down") ⟨"a", "", " m ", [⟨"user", "hi"⟩]⟩
        (fun _ => none) "2024-01-01T00:00:00Z").2 "a" =
      .ok ⟨"a", "", "m", [⟨"user", "hi"⟩], "2024-01-01T00:00:00Z"⟩ ∧
    (" m " : String) ≠ "m" := by
  exact ⟨by decide, by decide⟩

/-- C4 (amended): for every id whose sanitized form is non-empty and every
list of messages, `Save(id, title, model, messages)` followed by
`Load(id)` returns a transcript with the same id (sanitized), the
whitespace-stripped input model, and the same messages; only the title
may differ from the input. -/
theorem C4_save_load_roundtrip (call : ChatCall) (req : SaveRequest)
    (store : Store) (now : String)
    (h : sanitize_chat_id (pyStrip req.id) ≠ "") :
    (save_chat call req store now).1 = .ok (sanitize_chat_id (pyStrip req.id)) ∧
    ∃ t, load_chat (save_chat call req store now).2 req.id =
      .ok ⟨sanitize_chat_id (pyStrip req.id), t, pyStrip req.model, req.messages, now⟩ := by
  simp only [save_chat, if_neg h]
  refine ⟨trivial,
    save_title call req (store (sanitize_chat_id (pyStrip req.id))), ?_⟩
  have h' : sanitize_chat_id req.id ≠ "" := by
    rw [← sanitize_pyStrip req.id]; exact h
  simp only [load_chat, sanitize_pyStrip req.id, if_neg h', if_pos rfl, if_true]

/-- Witness for C4 (amended): the concrete scenario of the spec, with the
title-generation call failing. -/
theorem C4_save_load_roundtrip_witness :
    ((save_chat (fun _ _ => .error "down") ⟨"a", "", " m ", [⟨"user", "hi"⟩]⟩
        (fun _ => none) "T").1 = .ok (sanitize_chat_id (pyStrip "a")) ∧
      ∃ t, load_chat (save_chat (fun _ _ => .error "down")
          ⟨"a", "", " m ", [⟨"user", "hi"⟩]⟩ (fun _ => none) "T").2 "a" =
        .ok ⟨sanitize_chat_id (pyStrip "a"), t, pyStrip " m ", [⟨"user", "hi"⟩], "T"⟩) ∧
    load_chat (save_chat (fun _ _ => .error "down")
        ⟨"a", "", " m ", [⟨"user", "hi"⟩]⟩ (fun _ => none) "T").2 "a" =
      .ok ⟨"a", "", "m", [⟨"user", "hi"⟩], "T"⟩ :=
  ⟨C4_save_load_roundtrip (fun _ _ => .error "down")
      ⟨"a", "", " m ", [⟨"user", "hi"⟩]⟩ (fun _ => none) "T" (by decide),
    by decide⟩

/-- When no usable title is supplied and every chat call raises, the
computed title is the stripped existing title (or empty when there is no
existing transcript); in particular the generation failure is swallowed. -/
theorem save_title_of_gen_error (call : ChatCall) (req : SaveRequest)
    (existing : Option Payload)
    (h2 : pyStrip req.title = "")
    (h3 : ∀ m msgs, ∃ e, call m msgs = .error e) :
    save_title call req existing = existing.elim "" (fun p => pyStrip p.title) := by
  have hgen : ∀ t1 : String,
      (if t1 = "" then
        (if extract_first_user_message req.messages ≠ "" ∧ pyStrip req.model ≠ "" then
          match generate_chat_title call (extract_first_user_message req.messages)
              (pyStrip req.model) with
          | .ok t => t
          | .error _ => ""
        else t1)
      else t1) = t1 := by
    intro t1
    by_cases ht : t1 = ""
    · subst ht
      rw [if_pos rfl]
      by_cases hg : extract_first_user_message req.messages ≠ "" ∧ pyStrip req.model ≠ ""
      · rw [if_pos hg]
        obtain ⟨e, he⟩ := h3 (pyStrip req.model)
          [⟨"system", "Create a short chat title, 3 to 6 words. Return only the title."⟩,
           ⟨"user", extract_first_user_message req.messages⟩]
        unfold generate_chat_title
        rw [if_neg (by rintro (hc | hc) <;> [exact hg.1 hc; exact hg.2 hc])]
        rw [he]
      · rw [if_neg hg]
    · rw [if_neg ht]
  cases existing with
  | none =>
    simp only [save_title, h2, Option.elim]
    exact hgen ""
  | some p =>
    simp only [save_title, h2, Option.elim, if_pos rfl]
    exact hgen (pyStrip p.title)

/-- C8: saving never fails because of title generation. With no supplied
title and a chat runtime whose every call raises, `save_chat` still
succeeds and stores the transcript; its title is the stripped non-empty
title of the existing transcript when there is one (reuse), and the empty
string otherwise (the generation error is swallowed). -/
theorem C8_title_failure_swallowed (call : ChatCall) (req : SaveRequest)
    (store : Store) (now : String)
    (h1 : sanitize_chat_id (pyStrip req.id) ≠ "")
    (h2 : pyStrip req.title = "")
    (h3 : ∀ m msgs, ∃ e, call m msgs = .error e) :
    (save_chat call req store now).1 = .ok (sanitize_chat_id (pyStrip req.id)) ∧
    (save_chat call req store now).2 (sanitize_chat_id (pyStrip req.id)) =
      some ⟨sanitize_chat_id (pyStrip req.id),
        (store (sanitize_chat_id (pyStrip req.id))).elim ""
          (fun p => pyStrip p.title),
        pyStrip req.model, req.messages, now⟩ := by
  simp only [save_chat, if_neg h1, if_pos rfl]
  refine ⟨trivial, ?_⟩
  rw [save_title_of_gen_error call req
    (store (sanitize_chat_id (pyStrip req.id))) h2 h3, if_pos trivial]

/-- Witness for C8: an existing transcript titled `"Old title"`, a save
with no supplied title and a failing chat runtime: the save succeeds and
reuses the existing title. -/
theorem C8_title_failure_swallowed_witness :
    (save_chat (fun _ _ => .error "down") ⟨"chat1", "", "m", [⟨"user", "hi"⟩]⟩
        (fun k => if k = "chat1" then some ⟨"chat1", "Old title", "m", [], "T0"⟩ else none)
        "T1").1 = .ok (sanitize_chat_id (pyStrip "chat1")) ∧
    (save_chat (fun _ _ => .error "down") ⟨"chat1", "", "m", [⟨"user", "hi"⟩]⟩
        (fun k => if k = "chat1" then some ⟨"chat1", "Old title", "m", [], "T0"⟩ else none)
        "T1").2 (sanitize_chat_id (pyStrip "chat1")) =
      some ⟨sanitize_chat_id (pyStrip "chat1"),
        ((fun k => if k = "chat1" then
            some (⟨"chat1", "Old title", "m", [], "T0"⟩ : Payload) else none)
          (sanitize_chat_id (pyStrip "chat1"))).elim ""
          (fun p => pyStrip p.title),
        pyStrip "m", [⟨"user", "hi"⟩], "T1"⟩ :=
  C8_title_failure_swallowed (fun _ _ => .error "down")
    ⟨"chat1", "", "m", [⟨"user", "hi"⟩]⟩
    (fun k => if k = "chat1" then some ⟨"chat1", "Old title", "m", [], "T0"⟩ else none)
    "T1" (by decide) (by decide) (fun m msgs => ⟨"down", rfl⟩)

/-- C6: the listing never contains an entry whose stored id sanitizes to
empty (every returned id is non-empty and sanitize-invariant); for files
with pairwise distinct `updatedAt` values the result is strictly
descending by `updatedAt`; and files whose content fails to parse are
silently skipped rather than causing an error. -/
theorem C6_listing_spec (files : List (Option Payload)) :
    (∀ e ∈ list_saved_chats files, e.id ≠ "" ∧ sanitize_chat_id e.id = e.id) ∧
    ((files.filterMap id).Pairwise (fun p q => p.updatedAt ≠ q.updatedAt) →
      (list_saved_chats files).Pairwise
        (fun a b => pyStrLt b.updatedAt a.updatedAt = true)) ∧
    list_saved_chats files = list_saved_chats (files.filter Option.isSome) := by
  refine ⟨?_, ?_, ?_⟩
  · intro e he
    have he' : e ∈ files.filterMap chatFileSummary :=
      (List.perm_insertionSort summaryGe (files.filterMap chatFileSummary)).mem_iff.mp he
    obtain ⟨file, _, hsum⟩ := List.mem_filterMap.mp he'
    obtain ⟨p, _, hps⟩ := Option.bind_eq_some.mp hsum
    obtain ⟨hid, hne⟩ := payloadSummary_id hps
    refine ⟨hne, ?_⟩
    rw [hid]
    exact sanitize_idem (pyStrip p.id)
  · intro hdist
    have hperm := List.perm_insertionSort summaryGe (files.filterMap chatFileSummary)
    have hsorted : (list_saved_chats files).Pairwise summaryGe :=
      List.sorted_insertionSort summaryGe (files.filterMap chatFileSummary)
    have hsum_ne : (files.filterMap chatFileSummary).Pairwise
        (fun a b => a.updatedAt ≠ b.updatedAt) := by
      have heq : files.filterMap chatFileSummary =
          (files.filterMap id).filterMap payloadSummary := by
        rw [List.filterMap_filterMap]; rfl
      rw [heq, List.pairwise_filterMap]
      refine hdist.imp ?_
      intro p q hpq a ha b hb
      rw [payloadSummary_updatedAt ha, payloadSummary_updatedAt hb]
      exact hpq
    have hne_sorted : (list_saved_chats files).Pairwise
        (fun a b => a.updatedAt ≠ b.updatedAt) :=
      (hperm.pairwise_iff (fun h => h.symm)).mpr hsum_ne
    refine (hsorted.and hne_sorted).imp ?_
    intro a b hab
    refine charListLt_of_le_of_ne b.updatedAt.data a.updatedAt.data hab.1 ?_
    intro hd
    exact hab.2 (String.ext hd).symm
  · unfold list_saved_chats
    rw [filterMap_chatFileSummary_filter]

/-- Witness for C6: four files — a sanitizable id, an unparseable file,
an id that sanitizes to empty, and another sanitizable id — listed in
strictly descending timestamp order with the bad files skipped. -/
theorem C6_listing_spec_witness :
    ((⟨"b", "T1", "m", "2"⟩ : ChatSummary).id ≠ "" ∧
      sanitize_chat_id (⟨"b", "T1", "m", "2"⟩ : ChatSummary).id =
        (⟨"b", "T1", "m", "2"⟩ : ChatSummary).id) ∧
    (list_saved_chats
        [some ⟨"b!", "T1", "m", [], "2"⟩, none,
         some ⟨"!", "skip", "m", [], "9"⟩, some ⟨"a", "T2", "m", [], "1"⟩]).Pairwise
      (fun a b => pyStrLt b.updatedAt a.updatedAt = true) ∧
    list_saved_chats
        [some ⟨"b!", "T1", "m", [], "2"⟩, none,
         some ⟨"!", "skip", "m", [], "9"⟩, some ⟨"a", "T2", "m", [], "1"⟩] =
      list_saved_chats
        ([some ⟨"b!", "T1", "m", [], "2"⟩, none,
          some ⟨"!", "skip", "m", [], "9"⟩,
          some ⟨"a", "T2", "m", [], "1"⟩].filter Option.isSome) := by
  have h := C6_listing_spec
    [some ⟨"b!", "T1", "m", [], "2"⟩, none,
     some ⟨"!", "skip", "m", [], "9"⟩, some ⟨"a", "T2", "m", [], "1"⟩]
  exact ⟨h.1 ⟨"b", "T1", "m", "2"⟩ (by decide), h.2.1 (by decide), h.2.2⟩

end ChatServer
